import Mathlib

/-!
Verification development for the duckchat CLI client
(`src/duckchat/cli.py`).  The session/streaming protocol engine —
`Chat.setup`, `Chat.prompt` and `Output.print_answer` — is embedded
shallowly: HTTP transport is an external collaborator, so each modelled
operation takes the transport's response as an explicit argument and
returns the mutated client state together with either a result or the
Python exception the source would raise.  Python string/JSON library
functions used by the source (`str.strip`, `str.replace`, `in`,
`str.startswith`, `json.loads`, `json.dumps`) are modelled as executable
Lean functions over `String`/`List Char`.
-/

namespace Duckchat

/-- Characters removed by Python `str.strip()` with no argument,
restricted to the ASCII whitespace characters (space, tab, newline,
carriage return, vertical tab, form feed) that can occur in the decoded
stream lines; Python additionally strips rarer Unicode whitespace. -/
def pyIsSpace (c : Char) : Bool :=
  c = ' ' || c = '\t' || c = '\n' || c = '\r' || c = Char.ofNat 11 || c = Char.ofNat 12

/-- Python `s.strip()`: drop leading and trailing whitespace. -/
def pyStrip (s : String) : String :=
  String.mk (((s.toList.dropWhile pyIsSpace).reverse.dropWhile pyIsSpace).reverse)

/-- Tests whether `pat` occurs at the head of `l` (recursing on the
pattern, so it computes even when the tail of `l` is abstract). -/
def matchesAt : List Char → List Char → Bool
  | [], _ => true
  | _ :: _, [] => false
  | p :: ps, c :: cs => p == c && matchesAt ps cs

/-- Python `sub in s` on lists of characters: `pat` occurs as a
contiguous sublist. -/
def listContains (pat : List Char) : List Char → Bool
  | [] => pat.isEmpty
  | c :: cs => matchesAt pat (c :: cs) || listContains pat cs

/-- Python `sub in s` for strings. -/
def pyContains (s sub : String) : Bool :=
  listContains sub.toList s.toList

/-- Python `s.startswith(pre)`. -/
def pyStartsWith (s pre : String) : Bool :=
  matchesAt pre.toList s.toList

/-- Core of Python `str.replace`: replace every non-overlapping
occurrence of `pat` (nonempty) by `repl`, scanning left to right.  The
fuel argument only makes the recursion structural; it starts at the
input length, which never runs out because each step consumes at least
one character, and an exhausted fuel returns the rest unchanged. -/
def replaceAux (pat repl : List Char) : Nat → List Char → List Char
  | 0, l => l
  | _ + 1, [] => []
  | fuel + 1, c :: cs =>
    if !pat.isEmpty && matchesAt pat (c :: cs) then
      repl ++ replaceAux pat repl fuel (cs.drop (pat.length - 1))
    else
      c :: replaceAux pat repl fuel cs

/-- Python `s.replace(pat, repl)` for a nonempty pattern (the source
only ever calls it with the pattern `"data: "`). -/
def pyReplace (s pat repl : String) : String :=
  String.mk (replaceAux pat.toList repl.toList s.toList.length s.toList)

/-- Python `s.split(sep)` for a single separator character, on lists of
characters: splitting never drops empty pieces. -/
def splitChar (sep : Char) : List Char → List (List Char)
  | [] => [[]]
  | c :: cs =>
    match splitChar sep cs with
    | [] => [[c]]
    | h :: t => if c = sep then [] :: h :: t else (c :: h) :: t

/-- Python `s.split("\n")` as used on the assembled answer buffer. -/
def pySplitNl (s : String) : List String :=
  (splitChar '\n' s.toList).map String.mk

/-- Triple backtick marker used by the code-fence extraction loop. -/
def tripleBacktick : String :=
  String.mk [Char.ofNat 96, Char.ofNat 96, Char.ofNat 96]

/-! ## JSON values and `json.loads` -/

/-- JSON values as produced by Python `json.loads`; numbers keep their
raw lexeme (no claim inspects numeric values). -/
inductive JValue where
  | jnull : JValue
  | jbool (b : Bool) : JValue
  | jnum (raw : String) : JValue
  | jstr (s : String) : JValue
  | jarr (items : List JValue) : JValue
  | jobj (fields : List (String × JValue)) : JValue

/-- JSON insignificant whitespace (RFC 8259: space, tab, LF, CR). -/
def jsonWs (c : Char) : Bool :=
  c = ' ' || c = '\t' || c = '\n' || c = '\r'

def skipWs (l : List Char) : List Char :=
  l.dropWhile jsonWs

def hexVal (c : Char) : Option Nat :=
  if '0' ≤ c && c ≤ '9' then some (c.toNat - 48)
  else if 'a' ≤ c && c ≤ 'f' then some (c.toNat - 87)
  else if 'A' ≤ c && c ≤ 'F' then some (c.toNat - 70)
  else none

def quoteChar : Char := Char.ofNat 34

def backslashChar : Char := Char.ofNat 92

def lbrace : Char := Char.ofNat 123

def rbrace : Char := Char.ofNat 125

/-- Parse the body of a JSON string after the opening quote; returns the
decoded characters and the remaining input after the closing quote.
Python `json.loads` is strict: raw control characters are rejected. -/
def parseStringBody : Nat → List Char → Option (List Char × List Char)
  | 0, _ => none
  | _ + 1, [] => none
  | fuel + 1, c :: cs =>
    if c = quoteChar then some ([], cs)
    else if c = backslashChar then
      match cs with
      | [] => none
      | e :: cs2 =>
        if e = quoteChar then
          (parseStringBody fuel cs2).map (fun r => (quoteChar :: r.1, r.2))
        else if e = backslashChar then
          (parseStringBody fuel cs2).map (fun r => (backslashChar :: r.1, r.2))
        else if e = '/' then
          (parseStringBody fuel cs2).map (fun r => ('/' :: r.1, r.2))
        else if e = 'b' then
          (parseStringBody fuel cs2).map (fun r => (Char.ofNat 8 :: r.1, r.2))
        else if e = 'f' then
          (parseStringBody fuel cs2).map (fun r => (Char.ofNat 12 :: r.1, r.2))
        else if e = 'n' then
          (parseStringBody fuel cs2).map (fun r => ('\n' :: r.1, r.2))
        else if e = 'r' then
          (parseStringBody fuel cs2).map (fun r => ('\r' :: r.1, r.2))
        else if e = 't' then
          (parseStringBody fuel cs2).map (fun r => ('\t' :: r.1, r.2))
        else if e = 'u' then
          match cs2 with
          | h1 :: h2 :: h3 :: h4 :: cs3 =>
            match hexVal h1, hexVal h2, hexVal h3, hexVal h4 with
            | some a, some b, some c3, some d =>
              (parseStringBody fuel cs3).map
                (fun r => (Char.ofNat (((a * 16 + b) * 16 + c3) * 16 + d) :: r.1, r.2))
            | _, _, _, _ => none
          | _ => none
        else none
    else if c.toNat < 32 then none
    else (parseStringBody fuel cs).map (fun r => (c :: r.1, r.2))

/-- Parse a JSON number lexeme, returning the raw lexeme characters and
the rest of the input. -/
def parseNumber (l : List Char) : Option (List Char × List Char) :=
  let (sign, l1) :=
    match l with
    | '-' :: rest => (['-'], rest)
    | _ => (([] : List Char), l)
  match l1 with
  | '0' :: rest => parseNumTail (sign ++ ['0']) rest
  | c :: _ =>
    if c.isDigit then
      let ds := l1.takeWhile Char.isDigit
      parseNumTail (sign ++ ds) (l1.drop ds.length)
    else none
  | [] => none
where
  /-- Optional fraction and exponent after the integer part. -/
  parseNumTail (acc : List Char) (l : List Char) : Option (List Char × List Char) :=
    let (acc1, l1) :=
      match l with
      | '.' :: rest =>
        let ds := rest.takeWhile Char.isDigit
        if ds.isEmpty then (([] : List Char), none) else (acc ++ '.' :: ds, some (rest.drop ds.length))
      | _ => (acc, some l)
    match l1 with
    | none => none
    | some l2 =>
      match l2 with
      | c :: rest =>
        if c = 'e' || c = 'E' then
          let (sgn, rest2) :=
            match rest with
            | s :: r2 => if s = '+' || s = '-' then ([s], r2) else (([] : List Char), rest)
            | [] => (([] : List Char), rest)
          let ds := rest2.takeWhile Char.isDigit
          if ds.isEmpty then none
          else some (acc1 ++ c :: sgn ++ ds, rest2.drop ds.length)
        else some (acc1, l2)
      | [] => some (acc1, l2)

mutual

/-- Parse one JSON value starting at the head of the input (leading
whitespace already skipped by the caller). -/
def parseValue : Nat → List Char → Option (JValue × List Char)
  | 0, _ => none
  | fuel + 1, input =>
    match input with
    | [] => none
    | c :: cs =>
      if c = lbrace then
        match skipWs cs with
        | d :: ds =>
          if d = rbrace then some (.jobj [], ds)
          else
            (parseMembers fuel (d :: ds)).map (fun r => (JValue.jobj r.1, r.2))
        | [] => none
      else if c = '[' then
        match skipWs cs with
        | d :: ds =>
          if d = ']' then some (.jarr [], ds)
          else
            (parseItems fuel (d :: ds)).map (fun r => (JValue.jarr r.1, r.2))
        | [] => none
      else if c = quoteChar then
        (parseStringBody (cs.length + 1) cs).map (fun r => (JValue.jstr (String.mk r.1), r.2))
      else if ['t', 'r', 'u', 'e'].isPrefixOf input then
        some (.jbool true, input.drop 4)
      else if ['f', 'a', 'l', 's', 'e'].isPrefixOf input then
        some (.jbool false, input.drop 5)
      else if ['n', 'u', 'l', 'l'].isPrefixOf input then
        some (.jnull, input.drop 4)
      else
        (parseNumber input).map (fun r => (JValue.jnum (String.mk r.1), r.2))

/-- Parse the members of a JSON object, starting at the first key and
consuming through the closing brace. -/
def parseMembers : Nat → List Char → Option (List (String × JValue) × List Char)
  | 0, _ => none
  | fuel + 1, input =>
    match input with
    | c :: cs =>
      if c = quoteChar then
        match parseStringBody (cs.length + 1) cs with
        | none => none
        | some (key, r1) =>
          match skipWs r1 with
          | ':' :: r2 =>
            match parseValue fuel (skipWs r2) with
            | none => none
            | some (v, r3) =>
              match skipWs r3 with
              | ',' :: r4 =>
                (parseMembers fuel (skipWs r4)).map
                  (fun r => ((String.mk key, v) :: r.1, r.2))
              | d :: r4 =>
                if d = rbrace then some ([(String.mk key, v)], r4) else none
              | [] => none
          | _ => none
      else none
    | [] => none

/-- Parse the items of a JSON array, starting at the first item and
consuming through the closing bracket. -/
def parseItems : Nat → List Char → Option (List JValue × List Char)
  | 0, _ => none
  | fuel + 1, input =>
    match parseValue fuel input with
    | none => none
    | some (v, r1) =>
      match skipWs r1 with
      | ',' :: r2 => (parseItems fuel (skipWs r2)).map (fun r => (v :: r.1, r.2))
      | ']' :: r2 => some ([v], r2)
      | _ => none

end

/-- Python `json.loads`: parse a complete JSON document, rejecting
trailing garbage.  `none` models `json.JSONDecodeError`. -/
def jsonLoads (s : String) : Option JValue :=
  let cs := s.toList
  match parseValue (cs.length + 1) (skipWs cs) with
  | some (v, rest) => if (skipWs rest).isEmpty then some v else none
  | none => none

/-- Python `dict.get` on an object built from parsed members: duplicate
keys overwrite, so the last occurrence wins. -/
def dictGet (fields : List (String × JValue)) (k : String) : Option JValue :=
  fields.reverse.lookup k

/-! ## `json.dumps` on the payload built by `Chat.prompt` -/

/-- Lower-case hex digit, as emitted by Python `json.dumps`. -/
def hexDigitChar (n : Nat) : Char :=
  if n < 10 then Char.ofNat (48 + n) else Char.ofNat (87 + n)

/-- Escape one character the way Python `json.dumps` does with its
default `ensure_ascii=True`: quote, backslash and the common control
characters get two-character escapes, other control characters and all
non-ASCII characters become `\uXXXX` (surrogate pairs above U+FFFF). -/
def jsonEscapeChar (c : Char) : List Char :=
  if c = quoteChar then [backslashChar, quoteChar]
  else if c = backslashChar then [backslashChar, backslashChar]
  else if c = '\n' then [backslashChar, 'n']
  else if c = '\r' then [backslashChar, 'r']
  else if c = '\t' then [backslashChar, 't']
  else if c = Char.ofNat 8 then [backslashChar, 'b']
  else if c = Char.ofNat 12 then [backslashChar, 'f']
  else if c.toNat < 32 || 126 < c.toNat then
    let u4 : Nat → List Char := fun n =>
      [backslashChar, 'u', hexDigitChar (n / 4096 % 16), hexDigitChar (n / 256 % 16),
        hexDigitChar (n / 16 % 16), hexDigitChar (n % 16)]
    if c.toNat < 65536 then u4 c.toNat
    else u4 (55296 + (c.toNat - 65536) / 1024) ++ u4 (56320 + (c.toNat - 65536) % 1024)
  else [c]

/-- Python `json.dumps` of a string. -/
def jsonEscape (s : String) : String :=
  String.mk (quoteChar :: (s.toList.flatMap jsonEscapeChar) ++ [quoteChar])

/-! ## Data model of the client -/

/-- One message of the conversation, `{"content": ..., "role": ...}` in
the source's message dicts. -/
structure Turn where
  role : String
  content : String
deriving DecidableEq, Repr

/-- Python `json.dumps({"content": t.content, "role": t.role})` with the
source's insertion order (content first, role second). -/
def dumpsTurn (t : Turn) : String :=
  String.mk [lbrace] ++ "\"content\": " ++ jsonEscape t.content ++ ", \"role\": "
    ++ jsonEscape t.role ++ String.mk [rbrace]

/-- Python `json.dumps({"model": model, "messages": msgs})` as built in
`Chat.prompt` (cli.py lines 291-296), with `json.dumps` default
separators. -/
def dumpsPayload (model : String) (msgs : List Turn) : String :=
  String.mk [lbrace] ++ "\"model\": " ++ jsonEscape model ++ ", \"messages\": ["
    ++ String.intercalate ", " (msgs.map dumpsTurn) ++ "]" ++ String.mk [rbrace]

/-- Mutable state of a `Chat` instance (cli.py lines 227-240).  The
`requests.Session` object is opaque; it is modelled by the identity
(a number) of the session object currently assigned, `none` before
`setup`.  `vqd` is `none` for Python `None`. -/
structure ChatState where
  base_url : String
  model : String
  messages : List Turn
  vqd : Option String
  session : Option Nat
deriving DecidableEq, Repr

/-- Response delivered by the transport collaborator: HTTP status,
response headers (name-value pairs, names already normalized to the
lower-case form the source looks up), and the decoded lines the
streaming body yields via `iter_lines()`. -/
structure HTTPResponse where
  status : Nat
  headers : List (String × String)
  bodyLines : List String
deriving DecidableEq, Repr

/-- Request built by `Chat.prompt` (cli.py lines 283-302): URL, the
three headers from the literal dict (`x-vqd-4` keeps its `Option` since
Python would pass `None` through), and the serialized payload. -/
structure ChatRequest where
  url : String
  vqdHeader : Option String
  contentType : String
  accept : String
  body : String
deriving DecidableEq, Repr

/-- Request built by `Chat.setup` (cli.py lines 252-257). -/
structure StatusRequest where
  url : String
  xVqdAccept : String
deriving DecidableEq, Repr

/-- Python exceptions the modelled code can raise. -/
inductive ChatError where
  | httpError (status : Nat) : ChatError
  | keyError (key : String) : ChatError
  | runtimeError (msg : String) : ChatError
  | badFormat (line : String) : ChatError
  | jsonDecodeError (payload : String) : ChatError
  | attributeError : ChatError
  | typeError : ChatError
  | nameError (n : String) : ChatError
  | indexError : ChatError
deriving DecidableEq, Repr

/-- Observable steps of one exchange, used to record in which order the
source performs them. -/
inductive Event where
  | appendUserTurn : Event
  | serializeHistory : Event
  | postRequest : Event
  | updateToken : Event
  | parseStream : Event
  | appendAssistantTurn : Event
deriving DecidableEq, Repr

/-- Python `response.raise_for_status()`: raises `HTTPError` exactly for
status codes in [400, 600). -/
def raiseForStatus (status : Nat) : Bool :=
  decide (400 ≤ status) && decide (status < 600)

/-- Embeds `Chat.setup` (cli.py lines 242-264).  `fresh` is the identity
of the new `requests.Session()` object; `resp` is what the transport
returns for `GET base_url ++ "/status"`.  The returned state carries all
mutations performed before a raise: the session is reassigned first, and
on a 2xx response `vqd` is overwritten with `headers.get("x-vqd-4")`
even when that is absent (then `RuntimeError` is raised). -/
def Chat.setup (st : ChatState) (fresh : Nat) (resp : HTTPResponse) :
    ChatState × StatusRequest × Except ChatError Unit :=
  let st1 := { st with session := some fresh }
  let req : StatusRequest := { url := st.base_url ++ "/status", xVqdAccept := "1" }
  if raiseForStatus resp.status then
    (st1, req, .error (.httpError resp.status))
  else
    let v := resp.headers.lookup "x-vqd-4"
    let st2 := { st1 with vqd := v }
    match v with
    | none => (st2, req, .error (.runtimeError "Failed to retrieve VQD"))
    | some tok =>
      if tok = "" then (st2, req, .error (.runtimeError "Failed to retrieve VQD"))
      else (st2, req, .ok ())

/-- Embeds `Chat.prompt` (cli.py lines 266-311): append the user turn,
build headers and payload, POST (the transport's answer is `resp`),
`raise_for_status`, then read the renewal header with `[]` (KeyError
when absent) and overwrite `vqd`.  The event list records the order of
the observable steps. -/
def Chat.prompt (st : ChatState) (msg : String) (resp : HTTPResponse) :
    ChatState × ChatRequest × List Event × Except ChatError HTTPResponse :=
  let st1 := { st with messages := st.messages ++ [⟨"user", msg⟩] }
  let req : ChatRequest :=
    { url := st.base_url ++ "/chat"
      vqdHeader := st.vqd
      contentType := "application/json"
      accept := "text/plain"
      body := dumpsPayload st.model st1.messages }
  let ev := [Event.appendUserTurn, Event.serializeHistory, Event.postRequest]
  if raiseForStatus resp.status then
    (st1, req, ev, .error (.httpError resp.status))
  else
    match resp.headers.lookup "x-vqd-4" with
    | none => (st1, req, ev, .error (.keyError "x-vqd-4"))
    | some new_vqd =>
      ({ st1 with vqd := some new_vqd }, req, ev ++ [Event.updateToken], .ok resp)

/-- Embeds the streaming loop of `Output.print_answer` (cli.py lines
160-175).  The accumulator pair carries `buffer` and the last value
bound to `msg` (`none` while `msg` is still unbound). -/
def parseLoop : List String → String → Option String → Except ChatError (String × Option String)
  | [], buffer, msg => .ok (buffer, msg)
  | l :: rest, buffer, msg =>
    let line := pyStrip l
    if line = "" then parseLoop rest buffer msg
    else if line = "data: [DONE]" then .ok (buffer, msg)
    else if !pyStartsWith line "data: " then .error (.badFormat line)
    else
      match jsonLoads (pyReplace line "data: " "") with
      | none => .error (.jsonDecodeError (pyReplace line "data: " ""))
      | some (.jobj fields) =>
        match (dictGet fields "message").getD (.jstr "") with
        | .jstr s => parseLoop rest (buffer ++ s) (some s)
        | _ => .error .typeError
      | some _ => .error .attributeError

/-- Embeds the code-fence extraction loop of `Output.print_answer`
(cli.py lines 178-190): `print_file` is `args.print_file`, the `Bool`
accumulator is `printing`. -/
def extractLoop (print_file : Bool) : List String → Bool → List String
  | [], _ => []
  | line :: rest, printing =>
    if pyContains line tripleBacktick && !printing && print_file then
      extractLoop print_file rest true
    else if pyContains line tripleBacktick && printing && print_file then
      extractLoop print_file rest false
    else if printing || !print_file then
      line :: extractLoop print_file rest printing
    else
      extractLoop print_file rest printing

/-- Embeds `Output.print_answer` (cli.py lines 152-202): run the stream
loop, append the assistant turn with the variable `msg` (NameError when
no chunk ever bound it), run the extraction loop over the buffer and
produce the text handed to the console (`new_buffer[0]` raises
IndexError when the extraction kept nothing). -/
def Output.print_answer (st : ChatState) (resp : HTTPResponse) (print_file : Bool) :
    ChatState × List Event × Except ChatError String :=
  match parseLoop resp.bodyLines "" none with
  | .error e => (st, [Event.parseStream], .error e)
  | .ok (_, none) => (st, [Event.parseStream], .error (.nameError "msg"))
  | .ok (buffer, some msg) =>
    let st1 := { st with messages := st.messages ++ [⟨"assistant", msg⟩] }
    let ev := [Event.parseStream, Event.appendAssistantTurn]
    let new_buffer := extractLoop print_file (pySplitNl buffer) false
    if 1 < new_buffer.length then
      (st1, ev, .ok (String.intercalate "\n" new_buffer))
    else
      match new_buffer with
      | [] => (st1, ev, .error .indexError)
      | x :: _ => (st1, ev, .ok x)

/-- One exchange as `main` performs it (cli.py line 524):
`Output().print_answer(chat.prompt(prompt), chat, args)` — `prompt`
first, and `print_answer` only when `prompt` did not raise. -/
def send (st : ChatState) (msg : String) (resp : HTTPResponse) (print_file : Bool) :
    ChatState × ChatRequest × List Event × Except ChatError String :=
  match Chat.prompt st msg resp with
  | (st1, req, ev, .error e) => (st1, req, ev, .error e)
  | (st1, req, ev, .ok resp2) =>
    match Output.print_answer st1 resp2 print_file with
    | (st2, ev2, r2) => (st2, req, ev ++ ev2, r2)

/-- Modelled from the spec: the execution order §4.3 claims for one
`send` — steps 1-6 with the token update last ("and only then update the
SessionToken"). -/
def specClaimedSendOrder : List Event :=
  [.appendUserTurn, .serializeHistory, .postRequest, .parseStream,
    .appendAssistantTurn, .updateToken]

/-- Order in which the source actually performs the steps of a fully
successful exchange: the token is updated inside `Chat.prompt`, before
the stream is parsed. -/
def codeSendOrder : List Event :=
  [.appendUserTurn, .serializeHistory, .postRequest, .updateToken,
    .parseStream, .appendAssistantTurn]

/-- Runs a sequence of exchanges on one session, recording the request
each `send` issued; stops at the first raised exception. -/
def runSends : ChatState → List (String × HTTPResponse) → List ChatRequest × ChatState × Option ChatError
  | st, [] => ([], st, none)
  | st, (m, r) :: rest =>
    match send st m r false with
    | (st1, req, _, .error e) => ([req], st1, some e)
    | (st1, req, _, .ok _) =>
      match runSends st1 rest with
      | (reqs, st2, err) => (req :: reqs, st2, err)

/-! ## Concrete inputs used to exercise the model -/

/-- Chat state as `main` has it after a successful `setup`. -/
def exSt : ChatState :=
  { base_url := "https://duckduckgo.com/duckchat/v1", model := "gpt-4o-mini",
    messages := [], vqd := some "t0", session := some 0 }

/-- Freshly constructed `Chat` instance (cli.py lines 227-240). -/
def exSt0 : ChatState :=
  { base_url := "https://duckduckgo.com/duckchat/v1", model := "gpt-4o-mini",
    messages := [], vqd := none, session := none }

def lineHe : String := "data: \x7b\"message\":\"He\"\x7d"

def lineLlo : String := "data: \x7b\"message\":\"llo\"\x7d"

def lineDone : String := "data: [DONE]"

/-- Marker-prefixed line whose JSON payload itself contains the marker
substring. -/
def lineEmbedded : String := "data: \x7b\"message\":\"data: hi\"\x7d"

def streamHello : List String := [lineHe, lineLlo, lineDone]

def respHello : HTTPResponse :=
  { status := 200, headers := [("x-vqd-4", "t1")], bodyLines := streamHello }

def respBadLine : HTTPResponse :=
  { status := 200, headers := [("x-vqd-4", "t1")], bodyLines := ["bogus"] }

def respNoChunks : HTTPResponse :=
  { status := 200, headers := [("x-vqd-4", "t1")], bodyLines := [] }

def respDoneOnly : HTTPResponse :=
  { status := 200, headers := [("x-vqd-4", "t1")], bodyLines := [lineDone] }

def respNoToken : HTTPResponse :=
  { status := 204, headers := [], bodyLines := [] }

def respStatus : HTTPResponse :=
  { status := 200, headers := [("x-vqd-4", "t0")], bodyLines := [] }

/-- Chat response carrying renewal token `t` and a one-chunk stream. -/
def respTok (t : String) : HTTPResponse :=
  { status := 200, headers := [("x-vqd-4", t)],
    bodyLines := ["data: \x7b\"message\":\"ok\"\x7d", "data: [DONE]"] }

/-- Assembled answer of the spec's code-fence extraction example. -/
def exampleAnswer : String :=
  "intro\n" ++ tripleBacktick ++ "\ncode line 1\ncode line 2\n" ++ tripleBacktick ++ "\noutro\n"

/-! ## Helper lemmas -/

theorem raiseForStatus_false {s : Nat} (h : s < 400) : raiseForStatus s = false := by
  simp only [raiseForStatus, Bool.and_eq_false_imp, decide_eq_true_eq, decide_eq_false_iff_not]
  omega

theorem prompt_ok_facts {st : ChatState} {m : String} {resp : HTTPResponse}
    {st1 : ChatState} {req : ChatRequest} {ev : List Event} {r2 : HTTPResponse}
    (h : Chat.prompt st m resp = (st1, req, ev, .ok r2)) :
    r2 = resp ∧
    req = { url := st.base_url ++ "/chat", vqdHeader := st.vqd,
            contentType := "application/json", accept := "text/plain",
            body := dumpsPayload st.model (st.messages ++ [⟨"user", m⟩]) } ∧
    ev = [Event.appendUserTurn, Event.serializeHistory, Event.postRequest,
          Event.updateToken] ∧
    ∃ nv, resp.headers.lookup "x-vqd-4" = some nv ∧
      st1 = { st with messages := st.messages ++ [⟨"user", m⟩], vqd := some nv } := by
  unfold Chat.prompt at h
  split at h
  · simp at h
  · split at h
    · simp at h
    · rename_i nv hnv
      simp only [Prod.mk.injEq, List.append_eq, Except.ok.injEq] at h
      obtain ⟨h1, h2, h3, h4⟩ := h
      subst h1 h2 h3 h4
      refine ⟨rfl, rfl, rfl, nv, hnv, rfl⟩

theorem prompt_err_facts {st : ChatState} {m : String} {resp : HTTPResponse}
    {st1 : ChatState} {req : ChatRequest} {ev : List Event} {e : ChatError}
    (h : Chat.prompt st m resp = (st1, req, ev, .error e)) :
    st1 = { st with messages := st.messages ++ [⟨"user", m⟩] } ∧
    (e = .httpError resp.status ∨ e = .keyError "x-vqd-4") := by
  unfold Chat.prompt at h
  split at h
  · simp only [Prod.mk.injEq, Except.error.injEq] at h
    obtain ⟨h1, _, _, h4⟩ := h
    exact ⟨h1.symm, Or.inl h4.symm⟩
  · split at h
    · simp only [Prod.mk.injEq, Except.error.injEq] at h
      obtain ⟨h1, _, _, h4⟩ := h
      exact ⟨h1.symm, Or.inr h4.symm⟩
    · simp at h

theorem print_answer_of_parse_error {st : ChatState} {resp : HTTPResponse} {pf : Bool}
    {e : ChatError} (h : parseLoop resp.bodyLines "" none = .error e) :
    Output.print_answer st resp pf = (st, [Event.parseStream], .error e) := by
  unfold Output.print_answer
  rw [h]

theorem print_answer_of_parse_none {st : ChatState} {resp : HTTPResponse} {pf : Bool}
    {buf : String} (h : parseLoop resp.bodyLines "" none = .ok (buf, none)) :
    Output.print_answer st resp pf = (st, [Event.parseStream], .error (.nameError "msg")) := by
  unfold Output.print_answer
  rw [h]

theorem print_answer_ok_inv {st : ChatState} {resp : HTTPResponse} {pf : Bool}
    {st' : ChatState} {ev : List Event} {a : String}
    (h : Output.print_answer st resp pf = (st', ev, .ok a)) :
    ∃ buf m, parseLoop resp.bodyLines "" none = .ok (buf, some m) ∧
      st' = { st with messages := st.messages ++ [⟨"assistant", m⟩] } ∧
      ev = [Event.parseStream, Event.appendAssistantTurn] := by
  unfold Output.print_answer at h
  split at h
  · simp at h
  · simp at h
  · rename_i buf m hparse
    refine ⟨buf, m, hparse, ?_⟩
    dsimp only at h
    split at h
    · simp only [Prod.mk.injEq] at h
      exact ⟨h.1.symm, h.2.1.symm⟩
    · split at h
      · simp at h
      · simp only [Prod.mk.injEq] at h
        exact ⟨h.1.symm, h.2.1.symm⟩

theorem print_answer_err_inv {st : ChatState} {resp : HTTPResponse} {pf : Bool}
    {st' : ChatState} {ev : List Event} {e : ChatError}
    (h : Output.print_answer st resp pf = (st', ev, .error e))
    (hne : e ≠ ChatError.indexError) :
    st' = st ∧ ev = [Event.parseStream] ∧
    (parseLoop resp.bodyLines "" none = .error e ∨
      (∃ buf, parseLoop resp.bodyLines "" none = .ok (buf, none) ∧ e = .nameError "msg")) := by
  unfold Output.print_answer at h
  split at h
  · rename_i e0 hparse
    simp only [Prod.mk.injEq, Except.error.injEq] at h
    obtain ⟨h1, h2, h3⟩ := h
    exact ⟨h1.symm, h2.symm, Or.inl (h3 ▸ hparse)⟩
  · rename_i buf hparse
    simp only [Prod.mk.injEq, Except.error.injEq] at h
    obtain ⟨h1, h2, h3⟩ := h
    exact ⟨h1.symm, h2.symm, Or.inr ⟨buf, hparse, h3.symm⟩⟩
  · rename_i buf m hparse
    dsimp only at h
    split at h
    · simp at h
    · split at h
      · simp only [Prod.mk.injEq, Except.error.injEq] at h
        exact absurd h.2.2.symm hne
      · simp at h

theorem parseLoop_sentinel {l : String} (rest : List String) (buf : String)
    (m0 : Option String) (h : pyStrip l = "data: [DONE]") :
    parseLoop (l :: rest) buf m0 = .ok (buf, m0) := by
  unfold parseLoop
  rw [h]
  simp

theorem parseLoop_chunk {l : String} (rest : List String) (buf : String)
    (m0 : Option String) {fields : List (String × JValue)} {s : String}
    (h0 : pyStrip l ≠ "") (h1 : pyStrip l ≠ "data: [DONE]")
    (h2 : pyStartsWith (pyStrip l) "data: " = true)
    (h3 : jsonLoads (pyReplace (pyStrip l) "data: " "") = some (.jobj fields))
    (h4 : (dictGet fields "message").getD (.jstr "") = .jstr s) :
    parseLoop (l :: rest) buf m0 = parseLoop rest (buf ++ s) (some s) := by
  simp only [parseLoop]
  rw [if_neg h0, if_neg h1, h2]
  simp [h3, h4]

theorem parseLoop_badFormat_inv {lines : List String} {buf : String}
    {m0 : Option String} {l : String}
    (h : parseLoop lines buf m0 = .error (.badFormat l)) :
    l ≠ "" ∧ l ≠ "data: [DONE]" ∧ pyStartsWith l "data: " = false := by
  induction lines generalizing buf m0 with
  | nil => simp [parseLoop] at h
  | cons a rest ih =>
    simp only [parseLoop] at h
    split at h
    · exact ih h
    · rename_i hblank
      split at h
      · simp at h
      · rename_i hdone
        split at h
        · rename_i hmark
          simp only [Except.error.injEq, ChatError.badFormat.injEq] at h
          subst h
          exact ⟨hblank, hdone, by simpa using hmark⟩
        · split at h
          · simp at h
          · split at h
            · exact ih h
            · simp at h
          · simp at h

theorem parseLoop_offending {l : String} (post : List String)
    (hl0 : pyStrip l ≠ "") (hl1 : pyStrip l ≠ "data: [DONE]")
    (hl2 : pyStartsWith (pyStrip l) "data: " = false) :
    ∀ (pre : List String) (buf : String) (m0 : Option String) (b : String)
      (mo : Option String), parseLoop pre buf m0 = .ok (b, mo) →
      (∀ p ∈ pre, pyStrip p ≠ "data: [DONE]") →
      parseLoop (pre ++ l :: post) buf m0 = .error (.badFormat (pyStrip l)) := by
  intro pre
  induction pre with
  | nil =>
    intro buf m0 b mo _ _
    simp only [List.nil_append, parseLoop]
    rw [if_neg hl0, if_neg hl1, hl2]
    simp
  | cons a rest ih =>
    intro buf m0 b mo hok hstop
    have hstopa : pyStrip a ≠ "data: [DONE]" := hstop a (by simp)
    have hstoprest : ∀ p ∈ rest, pyStrip p ≠ "data: [DONE]" := by
      intro p hp
      exact hstop p (by simp [hp])
    simp only [List.cons_append, parseLoop] at hok ⊢
    by_cases hblank : pyStrip a = ""
    · rw [if_pos hblank] at hok ⊢
      exact ih buf m0 b mo hok hstoprest
    · rw [if_neg hblank, if_neg hstopa] at hok ⊢
      by_cases hmark : (!pyStartsWith (pyStrip a) "data: ") = true
      · rw [if_pos hmark] at hok
        simp at hok
      · rw [if_neg hmark] at hok ⊢
        cases hjson : jsonLoads (pyReplace (pyStrip a) "data: " "") with
        | none =>
          rw [hjson] at hok
          simp at hok
        | some v =>
          rw [hjson] at hok
          cases v with
          | jobj fields =>
            dsimp only at hok ⊢
            cases hget : (dictGet fields "message").getD (.jstr "") with
            | jstr s =>
              rw [hget] at hok
              dsimp only at hok ⊢
              exact ih (buf ++ s) (some s) b mo hok hstoprest
            | jnull =>
              rw [hget] at hok
              simp at hok
            | jbool b2 =>
              rw [hget] at hok
              simp at hok
            | jnum r2 =>
              rw [hget] at hok
              simp at hok
            | jarr items =>
              rw [hget] at hok
              simp at hok
            | jobj fs2 =>
              rw [hget] at hok
              simp at hok
          | jnull => simp at hok
          | jbool b2 => simp at hok
          | jnum r2 => simp at hok
          | jstr s2 => simp at hok
          | jarr items => simp at hok

theorem extractLoop_off (lines : List String) (printing : Bool) :
    extractLoop false lines printing = lines := by
  induction lines generalizing printing with
  | nil => rfl
  | cons a rest ih => simp [extractLoop, ih]

theorem extractLoop_toggle {line : String} (rest : List String) (printing : Bool)
    (h : pyContains line tripleBacktick = true) :
    extractLoop true (line :: rest) printing = extractLoop true rest (!printing) := by
  cases printing <;> simp [extractLoop, h]

theorem extractLoop_keep {line : String} (rest : List String) (printing : Bool)
    (h : pyContains line tripleBacktick = false) :
    extractLoop true (line :: rest) printing =
      if printing then line :: extractLoop true rest printing
      else extractLoop true rest printing := by
  cases printing <;> simp [extractLoop, h]

theorem replaceAux_no_occ {pat : List Char} (repl : List Char) {l : List Char}
    (h : listContains pat l = false) :
    ∀ fuel, replaceAux pat repl fuel l = l := by
  induction l with
  | nil =>
    intro fuel
    cases fuel <;> rfl
  | cons c cs ih =>
    intro fuel
    cases fuel with
    | zero => rfl
    | succ f =>
      unfold listContains at h
      simp only [Bool.or_eq_false_iff] at h
      unfold replaceAux
      rw [h.1]
      simp [ih h.2 f]

theorem setup_ok_facts {st : ChatState} {fresh : Nat} {resp : HTTPResponse}
    {st1 : ChatState} {sreq : StatusRequest}
    (h : Chat.setup st fresh resp = (st1, sreq, .ok ())) :
    ∃ tok, resp.headers.lookup "x-vqd-4" = some tok ∧ tok ≠ "" ∧
      st1 = { st with vqd := some tok, session := some fresh } := by
  unfold Chat.setup at h
  split at h
  · simp at h
  · dsimp only at h
    split at h
    · simp at h
    · rename_i tok htok
      split at h
      · simp at h
      · rename_i hne
        simp only [Prod.mk.injEq] at h
        refine ⟨tok, htok, hne, ?_⟩
        rw [← h.1, htok]

theorem send_ok_facts {st : ChatState} {m : String} {resp : HTTPResponse} {pf : Bool}
    {st' : ChatState} {req : ChatRequest} {ev : List Event} {a : String}
    (h : send st m resp pf = (st', req, ev, .ok a)) :
    req.vqdHeader = st.vqd ∧
    req.body = dumpsPayload st.model (st.messages ++ [⟨"user", m⟩]) ∧
    st'.vqd = resp.headers.lookup "x-vqd-4" ∧
    ev = codeSendOrder ∧
    ∃ c, st'.messages = st.messages ++ [⟨"user", m⟩, ⟨"assistant", c⟩] := by
  unfold send at h
  split at h
  · simp at h
  · rename_i st1 req1 ev1 resp2 hprompt
    split at h
    · rename_i st2 ev2 r2 hpa
      simp only [Prod.mk.injEq] at h
      obtain ⟨hst, hreq, hev, hres⟩ := h
      obtain ⟨hr2, hreqv, hev1, nv, hnv, hst1⟩ := prompt_ok_facts hprompt
      subst hr2
      rw [hres] at hpa
      obtain ⟨buf, mg, hparse, hst2, hev2⟩ := print_answer_ok_inv hpa
      subst hst hreq hev
      exact ⟨by simp [hreqv], by simp [hreqv], by simp [hst2, hst1, hnv],
        by simp [hev1, hev2, codeSendOrder], mg, by simp [hst2, hst1]⟩

theorem runSends_chain : ∀ (calls : List (String × HTTPResponse)) (st : ChatState)
    (reqs : List ChatRequest) (st' : ChatState),
    runSends st calls = (reqs, st', none) →
    reqs.map (fun r => r.vqdHeader) =
      (st.vqd :: calls.map (fun c => c.2.headers.lookup "x-vqd-4")).dropLast := by
  intro calls
  induction calls with
  | nil =>
    intro st reqs st' h
    simp only [runSends, Prod.mk.injEq] at h
    rw [← h.1]
    simp
  | cons c rest ih =>
    intro st reqs st' h
    obtain ⟨m, r⟩ := c
    simp only [runSends] at h
    split at h
    · simp at h
    · rename_i st1 req ev a hsend
      rcases hrun : runSends st1 rest with ⟨reqs0, st2, err⟩
      rw [hrun] at h
      simp only [Prod.mk.injEq] at h
      obtain ⟨h1, h2, h3⟩ := h
      subst h1 h2 h3
      have hfacts := send_ok_facts hsend
      simp only [List.map_cons]
      rw [hfacts.1]
      have hd : ((st.vqd :: r.headers.lookup "x-vqd-4" ::
          rest.map (fun c => c.2.headers.lookup "x-vqd-4")).dropLast) =
          st.vqd :: ((r.headers.lookup "x-vqd-4" ::
            rest.map (fun c => c.2.headers.lookup "x-vqd-4")).dropLast) := rfl
      rw [hd, ih st1 reqs0 st2 hrun, hfacts.2.2.1]

/-! ## Claims -/

/-- Claim C1 (code bug): for the two-chunk stream `data: {"message":"He"}`,
`data: {"message":"llo"}`, `data: [DONE]`, the assembled answer is
`"Hello"` and that is what the spec says is appended as the assistant
Turn, but the source appends the variable `msg` — the *last* chunk's
message `"llo"` (cli.py line 176) — so the appended content differs from
the assembled AnswerText. -/
theorem C1_assistant_turn_is_last_chunk :
    (send exSt "hi" respHello false).2.2.2 = .ok "Hello" ∧
    (send exSt "hi" respHello false).1.messages =
      [⟨"user", "hi"⟩, ⟨"assistant", "llo"⟩] ∧
    ("llo" : String) ≠ "Hello" :=
  ⟨rfl, rfl, by decide⟩

/-- Claim C2: a chat POST with a 2xx status and no `x-vqd-4` response
header makes `send` raise (`KeyError` from the header lookup) and leaves
the stored token unchanged; the conversation grows by the user turn
only. -/
theorem C2_missing_renewal_token_raises (st : ChatState) (m : String)
    (resp : HTTPResponse) (pf : Bool) (h2 : 200 ≤ resp.status)
    (h3 : resp.status < 300) (hh : resp.headers.lookup "x-vqd-4" = none) :
    (send st m resp pf).2.2.2 = .error (.keyError "x-vqd-4") ∧
    (send st m resp pf).1.vqd = st.vqd ∧
    (send st m resp pf).1.messages = st.messages ++ [⟨"user", m⟩] := by
  have hrf : raiseForStatus resp.status = false := raiseForStatus_false (by omega)
  simp [send, Chat.prompt, hrf, hh]

theorem C2_missing_renewal_token_raises_witness :
    (send exSt "q" respNoToken false).2.2.2 = .error (.keyError "x-vqd-4") ∧
    (send exSt "q" respNoToken false).1.vqd = exSt.vqd ∧
    (send exSt "q" respNoToken false).1.messages = exSt.messages ++ [⟨"user", "q"⟩] :=
  C2_missing_renewal_token_raises exSt "q" respNoToken false (by decide) (by decide) rfl

/-- Claim C3: across a successful `setup` and any sequence of successful
`send` calls, the `x-vqd-4` request header of call `n+1` is exactly the
`x-vqd-4` response header of call `n`, and the first request carries the
token obtained from the status endpoint: the list of request tokens is
the status token followed by each response's token, except the last. -/
theorem C3_token_monotonic_replacement {st0 : ChatState} {fresh : Nat}
    {statusResp : HTTPResponse} {st1 : ChatState} {sreq : StatusRequest}
    {calls : List (String × HTTPResponse)} {reqs : List ChatRequest} {st2 : ChatState}
    (hsetup : Chat.setup st0 fresh statusResp = (st1, sreq, .ok ()))
    (hrun : runSends st1 calls = (reqs, st2, none)) :
    reqs.map (fun r => r.vqdHeader) =
      (statusResp.headers.lookup "x-vqd-4" ::
        calls.map (fun c => c.2.headers.lookup "x-vqd-4")).dropLast := by
  obtain ⟨tok, htok, -, hst1⟩ := setup_ok_facts hsetup
  rw [runSends_chain calls st1 reqs st2 hrun, hst1, htok]

/-- Chat state right after the witness `setup` run. -/
def st1c : ChatState := { exSt0 with vqd := some "t0", session := some 1 }

theorem C3_token_monotonic_replacement_witness :
    (runSends st1c [("a", respTok "t1"), ("b", respTok "t2")]).1.map
        (fun r => r.vqdHeader) =
      (respStatus.headers.lookup "x-vqd-4" ::
        ([("a", respTok "t1"), ("b", respTok "t2")].map
          (fun c => c.2.headers.lookup "x-vqd-4"))).dropLast := by
  have h1 : Chat.setup exSt0 1 respStatus =
      (st1c, { url := "https://duckduckgo.com/duckchat/v1/status", xVqdAccept := "1" },
        .ok ()) := by rfl
  have h2 : runSends st1c [("a", respTok "t1"), ("b", respTok "t2")] =
      ((runSends st1c [("a", respTok "t1"), ("b", respTok "t2")]).1,
        (runSends st1c [("a", respTok "t1"), ("b", respTok "t2")]).2.1, none) := by rfl
  exact C3_token_monotonic_replacement h1 h2

/-- Claim C4: if `send` fails with the stream parser's format error, the
carried line is indeed non-blank, not the sentinel and not
marker-prefixed, and the conversation grew by exactly the user turn; a
fully successful `send` grows it by exactly two turns (one user, one
assistant); and reaching any such offending line (with no earlier
sentinel) makes the parser fail with that line. -/
theorem C4_malformed_line_aborts :
    (∀ (st : ChatState) (m : String) (resp : HTTPResponse) (pf : Bool)
        (st' : ChatState) (req : ChatRequest) (ev : List Event) (l : String),
        send st m resp pf = (st', req, ev, .error (.badFormat l)) →
        st'.messages = st.messages ++ [⟨"user", m⟩] ∧ l ≠ "" ∧
        l ≠ "data: [DONE]" ∧ pyStartsWith l "data: " = false) ∧
    (∀ (st : ChatState) (m : String) (resp : HTTPResponse) (pf : Bool)
        (st' : ChatState) (req : ChatRequest) (ev : List Event) (a : String),
        send st m resp pf = (st', req, ev, .ok a) →
        ∃ c, st'.messages = st.messages ++ [⟨"user", m⟩, ⟨"assistant", c⟩]) ∧
    (∀ (pre : List String) (l : String) (post : List String) (buf : String)
        (m0 : Option String) (b : String) (mo : Option String),
        parseLoop pre buf m0 = .ok (b, mo) →
        (∀ p ∈ pre, pyStrip p ≠ "data: [DONE]") →
        pyStrip l ≠ "" → pyStrip l ≠ "data: [DONE]" →
        pyStartsWith (pyStrip l) "data: " = false →
        parseLoop (pre ++ l :: post) buf m0 = .error (.badFormat (pyStrip l))) := by
  refine ⟨?_, ?_, ?_⟩
  · intro st m resp pf st' req ev l h
    unfold send at h
    split at h
    · rename_i st1 req1 ev1 e hprompt
      simp only [Prod.mk.injEq, Except.error.injEq] at h
      obtain ⟨h1, h2, h3, h4⟩ := h
      obtain ⟨-, he⟩ := prompt_err_facts hprompt
      subst h4
      rcases he with he | he <;> simp at he
    · rename_i st1 req1 ev1 resp2 hprompt
      split at h
      · rename_i st2 ev2 r2 hpa
        simp only [Prod.mk.injEq] at h
        obtain ⟨h1, h2, h3, h4⟩ := h
        rw [h4] at hpa
        obtain ⟨hst2, -, hcases⟩ := print_answer_err_inv hpa (by simp)
        obtain ⟨-, -, -, nv, -, hst1⟩ := prompt_ok_facts hprompt
        rcases hcases with hp | ⟨buf, -, habs⟩
        · obtain ⟨hl0, hl1, hl2⟩ := parseLoop_badFormat_inv hp
          refine ⟨?_, hl0, hl1, hl2⟩
          rw [← h1, hst2, hst1]
        · simp at habs
  · intro st m resp pf st' req ev a h
    exact (send_ok_facts h).2.2.2.2
  · intro pre l post buf m0 b mo hok hstop h0 h1 h2
    exact parseLoop_offending post h0 h1 h2 pre buf m0 b mo hok hstop

theorem C4_malformed_line_aborts_witness :
    ((send exSt "q" respBadLine false).1.messages = exSt.messages ++ [⟨"user", "q"⟩] ∧
      "bogus" ≠ "" ∧ "bogus" ≠ "data: [DONE]" ∧
      pyStartsWith "bogus" "data: " = false) ∧
    (∃ c, (send exSt "hi" respHello false).1.messages =
      exSt.messages ++ [⟨"user", "hi"⟩, ⟨"assistant", c⟩]) ∧
    parseLoop ([lineHe] ++ "bogus" :: []) "" none =
      .error (.badFormat (pyStrip "bogus")) := by
  refine ⟨?_, ?_, ?_⟩
  · have h : send exSt "q" respBadLine false =
        ((send exSt "q" respBadLine false).1, (send exSt "q" respBadLine false).2.1,
          (send exSt "q" respBadLine false).2.2.1, .error (.badFormat "bogus")) := by rfl
    exact C4_malformed_line_aborts.1 exSt "q" respBadLine false _ _ _ "bogus" h
  · have h : send exSt "hi" respHello false =
        ((send exSt "hi" respHello false).1, (send exSt "hi" respHello false).2.1,
          (send exSt "hi" respHello false).2.2.1, .ok "Hello") := by rfl
    exact C4_malformed_line_aborts.2.1 exSt "hi" respHello false _ _ _ "Hello" h
  · exact C4_malformed_line_aborts.2.2 [lineHe] "bogus" [] "" none "He" (some "He")
      (by rfl) (by decide) (by decide) (by decide) (by decide)

/-- Claim C5: once the sentinel line `data: [DONE]` is read the parser
stops and ignores any further lines: whatever junk follows the sentinel,
the concrete two-chunk stream assembles to `"Hello"` with no error, and
`print_answer` hands exactly `"Hello"` to the console. -/
theorem C5_sentinel_termination (junk : List String) (st : ChatState) :
    parseLoop (streamHello ++ junk) "" none = .ok ("Hello", some "llo") ∧
    (Output.print_answer st
      { status := 200, headers := [("x-vqd-4", "t1")], bodyLines := streamHello ++ junk }
      false).2.2 = .ok "Hello" := by
  have h1 : parseLoop (streamHello ++ junk) "" none = .ok ("Hello", some "llo") := by
    show parseLoop (lineHe :: lineLlo :: lineDone :: junk) "" none = _
    rw [parseLoop_chunk (lineLlo :: lineDone :: junk) "" none (by decide) (by decide)
        (by decide)
        (show jsonLoads (pyReplace (pyStrip lineHe) "data: " "") =
          some (.jobj [("message", JValue.jstr "He")]) from rfl)
        (show (dictGet [("message", JValue.jstr "He")] "message").getD (.jstr "") =
          JValue.jstr "He" from rfl),
      parseLoop_chunk (lineDone :: junk) ("" ++ "He") (some "He") (by decide) (by decide)
        (by decide)
        (show jsonLoads (pyReplace (pyStrip lineLlo) "data: " "") =
          some (.jobj [("message", JValue.jstr "llo")]) from rfl)
        (show (dictGet [("message", JValue.jstr "llo")] "message").getD (.jstr "") =
          JValue.jstr "llo" from rfl),
      parseLoop_sentinel junk ("" ++ "He" ++ "llo") (some "llo")
        (show pyStrip lineDone = "data: [DONE]" from rfl)]
    exact rfl
  refine ⟨h1, ?_⟩
  unfold Output.print_answer
  dsimp only
  rw [h1]
  exact rfl

theorem C6_payload_not_passed_unchanged :
    pyStartsWith lineEmbedded "data: " = true ∧
    pyReplace lineEmbedded "data: " "" = "\x7b\"message\":\"hi\"\x7d" ∧
    parseLoop [lineEmbedded, lineDone] "" none = .ok ("hi", some "hi") ∧
    ("hi" : String) ≠ "data: hi" :=
  ⟨rfl, rfl, rfl, by decide⟩

/-- Claim C6 (amended): for every marker-prefixed streamed line the
parser feeds `line.replace("data: ", "")` — with *every* occurrence of
the marker removed, not only the leading one — to the JSON parser and
appends the resulting object's `message` field (empty when absent); when
the payload does not itself contain the marker substring, this
replacement coincides with stripping exactly the leading marker. -/
theorem C6_amended_marker_replace_all :
    (∀ (l : String) (rest : List String) (buf : String) (m0 : Option String)
        (fields : List (String × JValue)) (s : String),
        pyStrip l ≠ "" → pyStrip l ≠ "data: [DONE]" →
        pyStartsWith (pyStrip l) "data: " = true →
        jsonLoads (pyReplace (pyStrip l) "data: " "") = some (.jobj fields) →
        (dictGet fields "message").getD (.jstr "") = .jstr s →
        parseLoop (l :: rest) buf m0 = parseLoop rest (buf ++ s) (some s)) ∧
    (∀ payload : String, listContains ("data: ".toList) payload.toList = false →
        pyReplace ("data: " ++ payload) "data: " "" = payload) := by
  refine ⟨?_, ?_⟩
  · intro l rest buf m0 fields s h0 h1 h2 h3 h4
    exact parseLoop_chunk rest buf m0 h0 h1 h2 h3 h4
  · intro payload hocc
    cases payload with
    | mk data =>
      have hocc' : listContains ("data: ".toList) data = false := hocc
      have h1 : pyReplace ("data: " ++ String.mk data) "data: " "" =
          String.mk (replaceAux ("data: ".toList) []
            (('a' :: 't' :: 'a' :: ':' :: ' ' :: data).length) data) := rfl
      rw [h1, replaceAux_no_occ [] hocc' _]

theorem C6_amended_marker_replace_all_witness :
    parseLoop [lineHe, lineDone] "" none = parseLoop [lineDone] ("" ++ "He") (some "He") ∧
    pyReplace ("data: " ++ "\x7b\"message\":\"ok\"\x7d") "data: " "" =
      "\x7b\"message\":\"ok\"\x7d" := by
  refine ⟨?_, ?_⟩
  · exact C6_amended_marker_replace_all.1 lineHe [lineDone] "" none
      [("message", .jstr "He")] "He" (by decide) (by decide) (by decide) rfl rfl
  · exact C6_amended_marker_replace_all.2 "\x7b\"message\":\"ok\"\x7d" (by decide)

/-- Claim C7 (counterexample): a fully successful concrete `send`
records the event order with the token update *before* stream parsing
and the assistant append, which differs from the order §4.3 claims
(token update last). -/
theorem C7_spec_order_violated :
    (send exSt "hi" respHello false).2.2.1 = codeSendOrder ∧
    (send exSt "hi" respHello false).2.2.2 = .ok "Hello" ∧
    codeSendOrder ≠ specClaimedSendOrder :=
  ⟨rfl, rfl, by decide⟩

/-- Claim C7 (amended): within a single `send`, the steps run in the
order: append user turn, serialize the full history, POST with the
current token, update the token from the response headers, parse the
stream, append the assistant turn; in particular a `send` that fails
during stream parsing has already replaced the session token. -/
theorem C7_amended_token_update_before_parse :
    (∀ (st : ChatState) (m : String) (resp : HTTPResponse) (pf : Bool)
        (st' : ChatState) (req : ChatRequest) (ev : List Event) (a : String),
        send st m resp pf = (st', req, ev, .ok a) →
        ev = codeSendOrder ∧
        req.body = dumpsPayload st.model (st.messages ++ [⟨"user", m⟩]) ∧
        req.vqdHeader = st.vqd ∧
        st'.vqd = resp.headers.lookup "x-vqd-4" ∧
        ∃ c, st'.messages = st.messages ++ [⟨"user", m⟩, ⟨"assistant", c⟩]) ∧
    (∀ (st : ChatState) (m : String) (resp : HTTPResponse) (pf : Bool)
        (st' : ChatState) (req : ChatRequest) (ev : List Event) (l : String),
        send st m resp pf = (st', req, ev, .error (.badFormat l)) →
        st'.vqd = resp.headers.lookup "x-vqd-4" ∧
        ev = [Event.appendUserTurn, Event.serializeHistory, Event.postRequest,
          Event.updateToken, Event.parseStream]) := by
  refine ⟨?_, ?_⟩
  · intro st m resp pf st' req ev a h
    obtain ⟨hreqv, hbody, hvqd, hev, hmsg⟩ := send_ok_facts h
    exact ⟨hev, hbody, hreqv, hvqd, hmsg⟩
  · intro st m resp pf st' req ev l h
    unfold send at h
    split at h
    · rename_i st1 req1 ev1 e hprompt
      simp only [Prod.mk.injEq, Except.error.injEq] at h
      obtain ⟨-, -, -, h4⟩ := h
      obtain ⟨-, he⟩ := prompt_err_facts hprompt
      subst h4
      rcases he with he | he <;> simp at he
    · rename_i st1 req1 ev1 resp2 hprompt
      split at h
      · rename_i st2 ev2 r2 hpa
        simp only [Prod.mk.injEq] at h
        obtain ⟨h1, h2, h3, h4⟩ := h
        rw [h4] at hpa
        obtain ⟨hst2, hev2, -⟩ := print_answer_err_inv hpa (by simp)
        obtain ⟨-, -, hev1, nv, hnv, hst1⟩ := prompt_ok_facts hprompt
        constructor
        · rw [← h1, hst2, hst1]
          simpa using hnv.symm
        · rw [← h3, hev1, hev2]
          rfl

theorem C7_amended_token_update_before_parse_witness :
    ((send exSt "ok" (respTok "t9") false).2.2.1 = codeSendOrder ∧
      (send exSt "ok" (respTok "t9") false).2.1.body =
        dumpsPayload exSt.model (exSt.messages ++ [⟨"user", "ok"⟩]) ∧
      (send exSt "ok" (respTok "t9") false).2.1.vqdHeader = exSt.vqd ∧
      (send exSt "ok" (respTok "t9") false).1.vqd =
        (respTok "t9").headers.lookup "x-vqd-4" ∧
      ∃ c, (send exSt "ok" (respTok "t9") false).1.messages =
        exSt.messages ++ [⟨"user", "ok"⟩, ⟨"assistant", c⟩]) ∧
    ((send exSt "z" respBadLine false).1.vqd =
        respBadLine.headers.lookup "x-vqd-4" ∧
      (send exSt "z" respBadLine false).2.2.1 =
        [Event.appendUserTurn, Event.serializeHistory, Event.postRequest,
          Event.updateToken, Event.parseStream]) := by
  refine ⟨?_, ?_⟩
  · have h : send exSt "ok" (respTok "t9") false =
        ((send exSt "ok" (respTok "t9") false).1, (send exSt "ok" (respTok "t9") false).2.1,
          (send exSt "ok" (respTok "t9") false).2.2.1, .ok "ok") := by rfl
    exact C7_amended_token_update_before_parse.1 exSt "ok" (respTok "t9") false _ _ _ "ok" h
  · have h : send exSt "z" respBadLine false =
        ((send exSt "z" respBadLine false).1, (send exSt "z" respBadLine false).2.1,
          (send exSt "z" respBadLine false).2.2.1, .error (.badFormat "bogus")) := by rfl
    exact C7_amended_token_update_before_parse.2 exSt "z" respBadLine false _ _ _ "bogus" h

/-- Claim C8: `setup` never touches the message list (on any path, and
its result does not depend on it), it always reassigns the HTTP
session, and a successful second call re-issues a fresh token from the
status response. -/
theorem C8_setup_frame (st : ChatState) (fresh : Nat) (resp : HTTPResponse) :
    (Chat.setup st fresh resp).1.messages = st.messages ∧
    (Chat.setup st fresh resp).1.session = some fresh ∧
    (∀ (res : Except ChatError Unit) (st' : ChatState) (sreq : StatusRequest),
        Chat.setup st fresh resp = (st', sreq, res) →
        ∀ ms : List Turn, Chat.setup { st with messages := ms } fresh resp =
          ({ st' with messages := ms }, sreq, res)) ∧
    (∀ (st' : ChatState) (sreq : StatusRequest),
        Chat.setup st fresh resp = (st', sreq, .ok ()) →
        ∃ tok, resp.headers.lookup "x-vqd-4" = some tok ∧ st'.vqd = some tok) := by
  refine ⟨?_, ?_, ?_, ?_⟩
  · unfold Chat.setup
    split
    · rfl
    · dsimp only
      split
      · rfl
      · split <;> rfl
  · unfold Chat.setup
    split
    · rfl
    · dsimp only
      split
      · rfl
      · split <;> rfl
  · intro res st' sreq h ms
    unfold Chat.setup at h ⊢
    by_cases hs : raiseForStatus resp.status = true
    · rw [if_pos hs] at h ⊢
      simp only [Prod.mk.injEq] at h
      obtain ⟨h1, h2, h3⟩ := h
      subst h2 h3
      rw [← h1]
    · rw [if_neg hs] at h ⊢
      dsimp only at h ⊢
      cases hl : resp.headers.lookup "x-vqd-4" with
      | none =>
        rw [hl] at h
        dsimp only at h ⊢
        simp only [Prod.mk.injEq] at h
        obtain ⟨h1, h2, h3⟩ := h
        subst h2 h3
        rw [← h1]
      | some tok =>
        rw [hl] at h
        dsimp only at h ⊢
        by_cases ht : tok = ""
        · rw [if_pos ht] at h ⊢
          simp only [Prod.mk.injEq] at h
          obtain ⟨h1, h2, h3⟩ := h
          subst h2 h3
          rw [← h1]
        · rw [if_neg ht] at h ⊢
          simp only [Prod.mk.injEq] at h
          obtain ⟨h1, h2, h3⟩ := h
          subst h2 h3
          rw [← h1]
  · intro st' sreq h
    obtain ⟨tok, htok, -, hst⟩ := setup_ok_facts h
    exact ⟨tok, htok, by rw [hst]⟩

theorem C8_setup_frame_witness :
    Chat.setup { exSt with messages := [⟨"user", "x"⟩] } 2 respStatus =
      ({ exSt with messages := [⟨"user", "x"⟩], vqd := some "t0", session := some 2 },
        { url := "https://duckduckgo.com/duckchat/v1/status", xVqdAccept := "1" },
        .ok ()) ∧
    (∃ tok, respStatus.headers.lookup "x-vqd-4" = some tok ∧
      ({ exSt with vqd := some "t0", session := some 2 } : ChatState).vqd = some tok) := by
  refine ⟨?_, ?_⟩
  · have h : Chat.setup exSt 2 respStatus =
        ({ exSt with vqd := some "t0", session := some 2 },
          { url := "https://duckduckgo.com/duckchat/v1/status", xVqdAccept := "1" },
          .ok ()) := by rfl
    exact (C8_setup_frame exSt 2 respStatus).2.2.1 (.ok ()) _ _ h [⟨"user", "x"⟩]
  · exact (C8_setup_frame exSt 2 respStatus).2.2.2 _ _ (by rfl)

/-- Claim C9: the code-fence extraction transform on the spec's example
answer yields exactly the two code lines; with the mode off every line
is kept; lines containing the triple-backtick marker toggle the
inside-fence flag (and are themselves dropped); other lines are kept
exactly while the flag is on. -/
theorem C9_code_fence_extraction :
    String.intercalate "\n" (extractLoop true (pySplitNl exampleAnswer) false) =
      "code line 1\ncode line 2" ∧
    (∀ (lines : List String) (printing : Bool), extractLoop false lines printing = lines) ∧
    (∀ (line : String) (rest : List String) (printing : Bool),
        pyContains line tripleBacktick = true →
        extractLoop true (line :: rest) printing = extractLoop true rest (!printing)) ∧
    (∀ (line : String) (rest : List String) (printing : Bool),
        pyContains line tripleBacktick = false →
        extractLoop true (line :: rest) printing =
          if printing then line :: extractLoop true rest printing
          else extractLoop true rest printing) :=
  ⟨rfl, extractLoop_off,
    fun _ rest printing h => extractLoop_toggle rest printing h,
    fun _ rest printing h => extractLoop_keep rest printing h⟩

theorem C9_code_fence_extraction_witness :
    extractLoop true [tripleBacktick] false = extractLoop true [] (!false) ∧
    extractLoop true ["abc"] true =
      (if true then "abc" :: extractLoop true [] true else extractLoop true [] true) :=
  ⟨C9_code_fence_extraction.2.2.1 tripleBacktick [] false (by decide),
    C9_code_fence_extraction.2.2.2 "abc" [] true (by decide)⟩

/-- Claim C10: when the stream has no data chunk before the sentinel (or
no lines at all), the loop variable `msg` is never bound, so
`print_answer` fails with `NameError` at the assistant append (cli.py
line 176), leaving the state untouched; at the `send` level the
conversation keeps only the user turn appended by `prompt`. -/
theorem C10_unbound_msg_failure :
    (∀ (st : ChatState) (resp : HTTPResponse) (pf : Bool) (buf : String),
        parseLoop resp.bodyLines "" none = .ok (buf, none) →
        Output.print_answer st resp pf =
          (st, [Event.parseStream], .error (.nameError "msg"))) ∧
    (∀ (st : ChatState) (m : String) (resp : HTTPResponse) (pf : Bool)
        (st' : ChatState) (req : ChatRequest) (ev : List Event),
        send st m resp pf = (st', req, ev, .error (.nameError "msg")) →
        st'.messages = st.messages ++ [⟨"user", m⟩]) := by
  refine ⟨?_, ?_⟩
  · intro st resp pf buf h
    exact print_answer_of_parse_none h
  · intro st m resp pf st' req ev h
    unfold send at h
    split at h
    · rename_i st1 req1 ev1 e hprompt
      simp only [Prod.mk.injEq, Except.error.injEq] at h
      obtain ⟨-, -, -, h4⟩ := h
      obtain ⟨-, he⟩ := prompt_err_facts hprompt
      subst h4
      rcases he with he | he <;> simp at he
    · rename_i st1 req1 ev1 resp2 hprompt
      split at h
      · rename_i st2 ev2 r2 hpa
        simp only [Prod.mk.injEq] at h
        obtain ⟨h1, -, -, h4⟩ := h
        rw [h4] at hpa
        obtain ⟨hst2, -, -⟩ := print_answer_err_inv hpa (by simp)
        obtain ⟨-, -, -, nv, -, hst1⟩ := prompt_ok_facts hprompt
        rw [← h1, hst2, hst1]

theorem C10_unbound_msg_failure_witness :
    Output.print_answer exSt respDoneOnly false =
      (exSt, [Event.parseStream], .error (.nameError "msg")) ∧
    (send exSt "q" respNoChunks false).1.messages = exSt.messages ++ [⟨"user", "q"⟩] := by
  refine ⟨?_, ?_⟩
  · exact C10_unbound_msg_failure.1 exSt respDoneOnly false "" (by rfl)
  · have h : send exSt "q" respNoChunks false =
        ((send exSt "q" respNoChunks false).1, (send exSt "q" respNoChunks false).2.1,
          (send exSt "q" respNoChunks false).2.2.1, .error (.nameError "msg")) := by rfl
    exact C10_unbound_msg_failure.2 exSt "q" respNoChunks false _ _ _ h

end Duckchat
